import Mathlib

/-!
Verification of the paragliding-calendar site-geometry core.

The numeric code of `frontend/src/utils/compassUtils.ts` and the React
component handlers are embedded shallowly.  JavaScript numbers are modelled
as exact rationals (`ℚ`) where the code is pure rational arithmetic, and as
reals (`ℝ`) for the two conversions that mention `Math.PI`.  The JavaScript
remainder operator `%` truncates toward zero (sign of the dividend); it is
embedded as `jsRem` below, distinct from the mathematical floored modulus
`fmod` used by the specification's reference definition.
-/

set_option autoImplicit false

/-- Truncation toward zero on `ℚ`, the rounding used by the JavaScript `%`
operator: floor for non-negative arguments, ceiling for negative ones. -/
def ratTrunc (q : ℚ) : ℤ := if 0 ≤ q then ⌊q⌋ else ⌈q⌉

/-- The JavaScript remainder `x % m`: `x - m * trunc (x / m)`.  Its sign
follows the dividend `x`. -/
def jsRem (x m : ℚ) : ℚ := x - m * ratTrunc (x / m)

/-- Mathematical floored modulus `x mod m = x - m * ⌊x / m⌋`, the reading of
`mod` in the specification's reference definition of `clockwiseDifference`. -/
def fmod (x m : ℚ) : ℚ := x - m * ⌊x / m⌋

/-- `calculateClockwiseDiff` from `compassUtils.ts`:
`(stopDegrees - startDegrees + 360) % 360` with the JavaScript `%`. -/
def calculateClockwiseDiff (startDegrees stopDegrees : ℚ) : ℚ :=
  jsRem (stopDegrees - startDegrees + 360) 360

/-- The specification's reference definition of `clockwiseDifference`:
`((b - a) mod 360 + 360) mod 360` with the mathematical (floored) modulus. -/
def refClockwiseDiff (a b : ℚ) : ℚ :=
  fmod (fmod (b - a) 360 + 360) 360

theorem ratTrunc_of_nonneg {q : ℚ} (h : 0 ≤ q) : ratTrunc q = ⌊q⌋ := if_pos h

theorem fmod_nonneg_of_pos {x m : ℚ} (hm : 0 < m) : 0 ≤ fmod x m := by
  have h := Int.floor_le (x / m)
  have h2 : (⌊x / m⌋ : ℚ) * m ≤ x / m * m :=
    mul_le_mul_of_nonneg_right h (le_of_lt hm)
  rw [div_mul_cancel₀ x (ne_of_gt hm)] at h2
  unfold fmod
  linarith [h2]

theorem fmod_lt_of_pos {x m : ℚ} (hm : 0 < m) : fmod x m < m := by
  have h := Int.lt_floor_add_one (x / m)
  have h2 : x / m * m < ((⌊x / m⌋ : ℚ) + 1) * m :=
    mul_lt_mul_of_pos_right h hm
  rw [div_mul_cancel₀ x (ne_of_gt hm)] at h2
  unfold fmod
  linarith [h2]

theorem fmod_add_self {x m : ℚ} (hm : m ≠ 0) : fmod (x + m) m = fmod x m := by
  unfold fmod
  have h : (x + m) / m = x / m + 1 := by
    field_simp
  rw [h, Int.floor_add_one]
  push_cast
  ring

theorem fmod_eq_self_of_lt {x m : ℚ} (h0 : 0 ≤ x) (hm : 0 < m) (h1 : x < m) :
    fmod x m = x := by
  unfold fmod
  have hfloor : ⌊x / m⌋ = 0 := by
    rw [Int.floor_eq_zero_iff]
    constructor
    · exact div_nonneg h0 (le_of_lt hm)
    · rw [div_lt_one hm] at *
      exact h1
  rw [hfloor]
  push_cast
  ring

theorem jsRem_eq_fmod_of_nonneg {x m : ℚ} (hx : 0 ≤ x) (hm : 0 < m) :
    jsRem x m = fmod x m := by
  unfold jsRem fmod
  rw [ratTrunc_of_nonneg (div_nonneg hx (le_of_lt hm))]

theorem fmod_eq_add_self_of_neg {x m : ℚ} (h0 : -m < x) (h1 : x < 0) (hm : 0 < m) :
    fmod x m = x + m := by
  unfold fmod
  have hfloor : ⌊x / m⌋ = -1 := by
    rw [Int.floor_eq_iff]
    constructor
    · push_cast
      rw [le_div_iff₀ hm]
      linarith
    · push_cast
      rw [div_lt_iff₀ hm]
      linarith
  rw [hfloor]
  push_cast
  ring

theorem calculateClockwiseDiff_eq_fmod (a b : ℚ) (h : -360 ≤ b - a) :
    calculateClockwiseDiff a b = fmod (b - a) 360 := by
  unfold calculateClockwiseDiff
  rw [jsRem_eq_fmod_of_nonneg (by linarith) (by norm_num)]
  exact fmod_add_self (by norm_num)

theorem refClockwiseDiff_eq_fmod (a b : ℚ) :
    refClockwiseDiff a b = fmod (b - a) 360 := by
  have h360 : (0:ℚ) < 360 := by norm_num
  unfold refClockwiseDiff
  rw [fmod_add_self (ne_of_gt h360)]
  exact fmod_eq_self_of_lt (fmod_nonneg_of_pos h360) h360 (fmod_lt_of_pos h360)

/-- Claim C2 (amended): whenever `stop - start ≥ -360` — in particular for
all bearings in `[0, 360)` — `calculateClockwiseDiff(start, stop)` equals the
specification's reference definition `((stop - start) mod 360 + 360) mod 360`
and its result lies in `[0, 360)`.  The restriction is necessary because the
JavaScript `%` truncates toward zero, so a more negative difference yields a
negative result (see the counterexample). -/
theorem calculateClockwiseDiff_eq_ref (a b : ℚ) (h : -360 ≤ b - a) :
    calculateClockwiseDiff a b = refClockwiseDiff a b ∧
    0 ≤ calculateClockwiseDiff a b ∧ calculateClockwiseDiff a b < 360 := by
  have h360 : (0:ℚ) < 360 := by norm_num
  have hcw := calculateClockwiseDiff_eq_fmod a b h
  refine ⟨?_, ?_, ?_⟩
  · rw [hcw, refClockwiseDiff_eq_fmod]
  · rw [hcw]; exact fmod_nonneg_of_pos h360
  · rw [hcw]; exact fmod_lt_of_pos h360

/-- Claim C2 counterexample: at `start = 721`, `stop = 0` the code computes
`-1` (the JavaScript `%` keeps the dividend's sign) while the reference
definition gives `359`, so the two disagree and the code's result is
negative. -/
theorem calculateClockwiseDiff_counterexample :
    calculateClockwiseDiff 721 0 = -1 ∧ refClockwiseDiff 721 0 = 359 ∧
    calculateClockwiseDiff 721 0 < 0 := by
  have h1 : calculateClockwiseDiff 721 0 = -1 := by
    unfold calculateClockwiseDiff jsRem ratTrunc
    have e1 : (0:ℚ) - 721 + 360 = -361 := by norm_num
    rw [e1, if_neg (by norm_num : ¬ (0:ℚ) ≤ -361 / 360)]
    have hc : ⌈(-361:ℚ) / 360⌉ = -1 := by
      rw [Int.ceil_eq_iff]
      norm_num
    rw [hc]
    norm_num
  have s1 := @fmod_add_self (-721 : ℚ) 360 (by norm_num)
  have s2 := @fmod_add_self (-361 : ℚ) 360 (by norm_num)
  norm_num at s1 s2
  have ha : fmod (-1 : ℚ) 360 = 359 := by
    rw [fmod_eq_add_self_of_neg (by norm_num) (by norm_num) (by norm_num)]
    norm_num
  have h2 : refClockwiseDiff 721 0 = 359 := by
    rw [refClockwiseDiff_eq_fmod]
    have e : (0:ℚ) - 721 = -721 := by norm_num
    rw [e, ← s1, ← s2, ha]
  exact ⟨h1, h2, by rw [h1]; norm_num⟩

/-- Witness for the amended claim C2 at `start = 0`, `stop = 90`. -/
theorem calculateClockwiseDiff_eq_ref_witness :
    calculateClockwiseDiff 0 90 = refClockwiseDiff 0 90 ∧
    0 ≤ calculateClockwiseDiff 0 90 ∧ calculateClockwiseDiff 0 90 < 360 :=
  calculateClockwiseDiff_eq_ref 0 90 (by norm_num)

/-- Claim C4: `calculateClockwiseDiff a a = 0` for every rational bearing
`a`, and for distinct bearings `a ≠ b` in `[0, 360)` the two opposite
clockwise spans sum to `360`, while for `a = b` the two (zero) spans sum to
`0`. -/
theorem calculateClockwiseDiff_self_and_sum :
    (∀ a : ℚ, calculateClockwiseDiff a a = 0) ∧
    (∀ a b : ℚ, 0 ≤ a → a < 360 → 0 ≤ b → b < 360 → a ≠ b →
      calculateClockwiseDiff a b + calculateClockwiseDiff b a = 360) := by
  constructor
  · intro a
    unfold calculateClockwiseDiff
    have h : a - a + 360 = (360:ℚ) := by ring
    rw [h]
    norm_num [jsRem, ratTrunc]
  · intro a b ha0 ha1 hb0 hb1 hab
    have h360 : (0:ℚ) < 360 := by norm_num
    have h1 : calculateClockwiseDiff a b = fmod (b - a) 360 :=
      calculateClockwiseDiff_eq_fmod a b (by linarith)
    have h2 : calculateClockwiseDiff b a = fmod (a - b) 360 :=
      calculateClockwiseDiff_eq_fmod b a (by linarith)
    rcases lt_or_gt_of_ne hab with hlt | hgt
    · rw [h1, h2, fmod_eq_self_of_lt (by linarith) h360 (by linarith),
        fmod_eq_add_self_of_neg (by linarith) (by linarith) h360]
      ring
    · rw [h1, h2, fmod_eq_add_self_of_neg (by linarith) (by linarith) h360,
        fmod_eq_self_of_lt (by linarith) h360 (by linarith)]
      ring

/-- Witness for claim C4 at `a = 5` (reflexive part) and `a = 0`, `b = 90`
(sum part). -/
theorem calculateClockwiseDiff_self_and_sum_witness :
    calculateClockwiseDiff 5 5 = 0 ∧
    calculateClockwiseDiff 0 90 + calculateClockwiseDiff 90 0 = 360 :=
  ⟨calculateClockwiseDiff_self_and_sum.1 5,
   calculateClockwiseDiff_self_and_sum.2 0 90 (by norm_num) (by norm_num)
     (by norm_num) (by norm_num) (by norm_num)⟩

/-- `degreesToRadians` from `compassUtils.ts`: `(degrees - 90) * (Math.PI / 180)`.
The conversions that mention `Math.PI` are modelled over `ℝ` with the exact
constant `π`. -/
noncomputable def degreesToRadians (degrees : ℝ) : ℝ :=
  (degrees - 90) * (Real.pi / 180)

/-- `radiansToDegrees` from `compassUtils.ts` (duplicated verbatim as
`radToDeg` inside the `CompassRose` component): `radians * 180 / Math.PI + 90`,
with `360` added once if the intermediate value is negative. -/
noncomputable def radiansToDegrees (radians : ℝ) : ℝ :=
  if radians * 180 / Real.pi + 90 < 0 then radians * 180 / Real.pi + 90 + 360
  else radians * 180 / Real.pi + 90

/-- Claim C3 (amended): `radiansToDegrees` computes `radians*180/π + 90` and
adds `360` once when that value is negative; the result lies in `[0, 360)`
for all radians in `[-5π/2, 3π/2)` — which covers the `atan2` range
`(-π, π]` actually fed to it — but not for every real input: a single
conditional `+360` cannot normalize arbitrary reals (see the
counterexample, where the result is `360` at `3π/2` and `-180` at `-7π/2`). -/
theorem radiansToDegrees_range (r : ℝ) (h0 : -(5 * Real.pi / 2) ≤ r)
    (h1 : r < 3 * Real.pi / 2) :
    0 ≤ radiansToDegrees r ∧ radiansToDegrees r < 360 := by
  have hpi : (0:ℝ) < Real.pi := Real.pi_pos
  have hd0 : -360 ≤ r * 180 / Real.pi + 90 := by
    have e : -(5 * Real.pi / 2) * 180 / Real.pi = -450 := by
      field_simp
      ring
    have hm : -(5 * Real.pi / 2) * 180 / Real.pi ≤ r * 180 / Real.pi :=
      (div_le_div_iff_of_pos_right hpi).mpr (mul_le_mul_of_nonneg_right h0 (by norm_num))
    linarith
  have hd1 : r * 180 / Real.pi + 90 < 360 := by
    have e : 3 * Real.pi / 2 * 180 / Real.pi = 270 := by
      field_simp
      ring
    have hm : r * 180 / Real.pi < 3 * Real.pi / 2 * 180 / Real.pi :=
      (div_lt_div_iff_of_pos_right hpi).mpr (mul_lt_mul_of_pos_right h1 (by norm_num))
    linarith
  unfold radiansToDegrees
  by_cases hneg : r * 180 / Real.pi + 90 < 0
  · rw [if_pos hneg]
    constructor <;> linarith
  · rw [if_neg hneg]
    push_neg at hneg
    constructor <;> linarith

/-- Claim C3 counterexample: at `3π/2` the code returns exactly `360`
(violating "never greater than or equal to 360"), and at `-7π/2` it returns
`-180` (violating "never negative"): the single `+360` adjustment does not
normalize every real input into `[0, 360)`. -/
theorem radiansToDegrees_counterexample :
    radiansToDegrees (3 * Real.pi / 2) = 360 ∧
    radiansToDegrees (-(7 * Real.pi) / 2) = -180 := by
  have hpi : Real.pi ≠ 0 := Real.pi_ne_zero
  constructor
  · have e : 3 * Real.pi / 2 * 180 / Real.pi + 90 = (360:ℝ) := by
      field_simp
      ring
    unfold radiansToDegrees
    rw [e, if_neg (by norm_num)]
  · have e : -(7 * Real.pi) / 2 * 180 / Real.pi + 90 = (-540:ℝ) := by
      field_simp
      ring
    unfold radiansToDegrees
    rw [e, if_pos (by norm_num)]
    norm_num

/-- Witness for the amended claim C3 at `r = 0` (bearing 90, east). -/
theorem radiansToDegrees_range_witness :
    0 ≤ radiansToDegrees 0 ∧ radiansToDegrees 0 < 360 :=
  radiansToDegrees_range 0
    (neg_nonpos.mpr (div_nonneg
      (mul_nonneg (by norm_num) Real.pi_pos.le) (by norm_num)))
    (div_pos (mul_pos (by norm_num) Real.pi_pos) (by norm_num))

/-- Claim C5: for every bearing `d ∈ [0, 360)`, in exact arithmetic the
round trip `radiansToDegrees (degreesToRadians d)` returns `d` itself (here
even on the nose, with no need for the `360 → 0` equivalence). -/
theorem radiansToDegrees_degreesToRadians (d : ℝ) (h0 : 0 ≤ d) (h1 : d < 360) :
    radiansToDegrees (degreesToRadians d) = d := by
  have hpi : Real.pi ≠ 0 := Real.pi_ne_zero
  have e : (d - 90) * (Real.pi / 180) * 180 / Real.pi + 90 = d := by
    field_simp
  unfold radiansToDegrees degreesToRadians
  rw [e, if_neg (not_lt.mpr h0)]

/-- Witness for claim C5 at `d = 45`. -/
theorem radiansToDegrees_degreesToRadians_witness :
    radiansToDegrees (degreesToRadians 45) = 45 :=
  radiansToDegrees_degreesToRadians 45 (by norm_num) (by norm_num)

/-- `Location` as in the frontend data model: a coordinate plus a name and an
optional country code. -/
structure Location where
  latitude : ℚ
  longitude : ℚ
  name : String
  country : Option String
deriving DecidableEq

/-- `Launch` as in `SiteEditor` (`part_011`): location, direction range
endpoints in degrees, elevation, and a site-type string. -/
structure Launch where
  location : Location
  direction_degrees_start : ℚ
  direction_degrees_stop : ℚ
  elevation : ℚ
  site_type : String
deriving DecidableEq

/-- `Landing` as in `SiteEditor`: location and elevation only. -/
structure Landing where
  location : Location
  elevation : ℚ
deriving DecidableEq

/-- `Site` (`ApiSite`): a name, optional country, and ordered launch and
landing sequences. -/
structure Site where
  name : String
  country : Option String
  launches : List Launch
  landings : List Landing
deriving DecidableEq

/-- JavaScript `Array.prototype.filter` with an index-aware callback,
threading the current index `k` through the traversal. -/
def filterIdx {α : Type} (p : Nat → Bool) : List α → Nat → List α
  | [], _ => []
  | a :: as, k => if p k then a :: filterIdx p as (k + 1) else filterIdx p as (k + 1)

/-- `handleLaunchRemove` from `SiteEditor`:
`launches.filter((_, i) => i !== index)`. -/
def handleLaunchRemove (launches : List Launch) (index : Nat) : List Launch :=
  filterIdx (fun i => decide (i ≠ index)) launches 0

/-- `handleLandingRemove` from `SiteEditor`:
`landings.filter((_, i) => i !== index)`. -/
def handleLandingRemove (landings : List Landing) (index : Nat) : List Landing :=
  filterIdx (fun i => decide (i ≠ index)) landings 0

theorem filterIdx_of_all {α : Type} (p : Nat → Bool) :
    ∀ (l : List α) (k : Nat), (∀ i, k ≤ i → p i = true) → filterIdx p l k = l
  | [], _, _ => rfl
  | a :: as, k, h => by
    simp only [filterIdx, h k (Nat.le_refl k), if_true]
    rw [filterIdx_of_all p as (k + 1) (fun i hi => h i (Nat.le_of_succ_le hi))]

theorem filterIdx_ne_eq_eraseIdx {α : Type} :
    ∀ (l : List α) (n k : Nat),
      filterIdx (fun i => decide (i ≠ k + n)) l k = l.eraseIdx n
  | [], _, _ => rfl
  | a :: as, 0, k => by
    have hk : (decide (k ≠ k + 0) : Bool) = false := by simp
    simp only [filterIdx, hk, if_false, List.eraseIdx]
    exact filterIdx_of_all _ as (k + 1)
      (fun i hi => by simp; omega)
  | a :: as, n + 1, k => by
    have hk : (decide (k ≠ k + (n + 1)) : Bool) = true := by simp
    simp only [filterIdx, hk, if_true, List.eraseIdx]
    have e : k + (n + 1) = (k + 1) + n := by omega
    rw [e, filterIdx_ne_eq_eraseIdx as n (k + 1)]

theorem handleLaunchRemove_eq_eraseIdx (l : List Launch) (n : Nat) :
    handleLaunchRemove l n = l.eraseIdx n := by
  unfold handleLaunchRemove
  rw [← filterIdx_ne_eq_eraseIdx l n 0]
  simp

theorem handleLandingRemove_eq_eraseIdx (l : List Landing) (n : Nat) :
    handleLandingRemove l n = l.eraseIdx n := by
  unfold handleLandingRemove
  rw [← filterIdx_ne_eq_eraseIdx l n 0]
  simp

/-- A sample launch used to instantiate the structural theorems. -/
def testLaunch : Launch :=
  { location := { latitude := 47, longitude := 10, name := "L", country := none },
    direction_degrees_start := 0, direction_degrees_stop := 90,
    elevation := 100, site_type := "Hang" }

/-- A sample landing used to instantiate the structural theorems. -/
def testLanding : Landing :=
  { location := { latitude := 47, longitude := 10, name := "D", country := none },
    elevation := 50 }

/-- Claim C1 (amended): on a valid index, `handleLaunchRemove` removes the
element at that position and shifts subsequent elements down by one; on any
invalid index (including every index on an empty sequence) it returns the
launch list unchanged — a silent no-op, not an `IndexOutOfRange` failure.
`handleLandingRemove` behaves identically on the landing sequence. -/
theorem handleRemove_valid_and_invalid (ls : List Launch) (lds : List Landing)
    (i : Nat) :
    (i < ls.length → handleLaunchRemove ls i = ls.take i ++ ls.drop (i + 1)) ∧
    (ls.length ≤ i → handleLaunchRemove ls i = ls) ∧
    (i < lds.length → handleLandingRemove lds i = lds.take i ++ lds.drop (i + 1)) ∧
    (lds.length ≤ i → handleLandingRemove lds i = lds) := by
  refine ⟨fun _ => ?_, fun h => ?_, fun _ => ?_, fun h => ?_⟩
  · rw [handleLaunchRemove_eq_eraseIdx, List.eraseIdx_eq_take_drop_succ]
  · rw [handleLaunchRemove_eq_eraseIdx, List.eraseIdx_eq_self.mpr h]
  · rw [handleLandingRemove_eq_eraseIdx, List.eraseIdx_eq_take_drop_succ]
  · rw [handleLandingRemove_eq_eraseIdx, List.eraseIdx_eq_self.mpr h]

/-- Claim C1 counterexample: removal on an empty collection, and removal at
an out-of-range index on a non-empty collection, succeed and return the
collection unchanged — the code has no `IndexOutOfRange` failure path at
all (its result type is the plain list, not an error-or-list). -/
theorem handleRemove_counterexample :
    handleLaunchRemove ([] : List Launch) 0 = [] ∧
    handleLandingRemove ([] : List Landing) 0 = [] ∧
    handleLaunchRemove [testLaunch] 99 = [testLaunch] := by
  refine ⟨rfl, rfl, ?_⟩
  rw [handleLaunchRemove_eq_eraseIdx, List.eraseIdx_eq_self.mpr (by simp)]

/-- Witness for the amended claim C1: valid removal at index 0 of a
singleton, no-op removal at index 5 of a singleton and at index 0 of the
empty sequence. -/
theorem handleRemove_valid_and_invalid_witness :
    handleLaunchRemove [testLaunch] 0 =
      List.take 0 [testLaunch] ++ List.drop (0 + 1) [testLaunch] ∧
    handleLaunchRemove [testLaunch] 5 = [testLaunch] ∧
    handleLandingRemove ([] : List Landing) 0 = [] :=
  ⟨(handleRemove_valid_and_invalid [testLaunch] [] 0).1 (by decide),
   (handleRemove_valid_and_invalid [testLaunch] [] 5).2.1 (by decide),
   (handleRemove_valid_and_invalid [] [] 0).2.2.2 (by decide)⟩

/-- The JavaScript idiom `x || fallback` applied to an optionally-chained
number (`launches[0]?.location.latitude || 47.0`): the fallback is used both
when the chain is `undefined` and when the number is falsy, i.e. `0`. -/
def jsOrElse (x : Option ℚ) (fallback : ℚ) : ℚ :=
  match x with
  | some v => if v = 0 then fallback else v
  | none => fallback

/-- The default launch constructed by `addLaunch` in `SiteEditor`. -/
def defaultNewLaunch (launches : List Launch) (siteCountry : Option String) : Launch :=
  { location :=
      { latitude := jsOrElse (launches.head?.map fun l => l.location.latitude) 47,
        longitude := jsOrElse (launches.head?.map fun l => l.location.longitude) 10,
        name := "",
        country := siteCountry },
    direction_degrees_start := 0,
    direction_degrees_stop := 360,
    elevation := 0,
    site_type := "Hang" }

/-- `addLaunch` from `SiteEditor`: `setLaunches([...launches, {...}])`,
appending the default new launch at the end. -/
def addLaunch (launches : List Launch) (siteCountry : Option String) : List Launch :=
  launches ++ [defaultNewLaunch launches siteCountry]

/-- `addLaunch` at the site level: `SiteEditor` keeps `launches` as component
state seeded from the site and saves it back, leaving other fields alone. -/
def siteAddLaunch (s : Site) : Site :=
  { s with launches := addLaunch s.launches s.country }

/-- `handleLaunchRemove` at the site level. -/
def siteRemoveLaunch (s : Site) (i : Nat) : Site :=
  { s with launches := handleLaunchRemove s.launches i }

/-- Claim C8: `addLaunch` appends the new launch at the end of the launch
sequence, leaving every existing launch in place and in order, and
`addLaunch` followed by `removeLaunch` at the appended index returns a site
equal to the original. -/
theorem addLaunch_append_and_roundtrip (s : Site) :
    (∃ nl : Launch, (siteAddLaunch s).launches = s.launches ++ [nl]) ∧
    siteRemoveLaunch (siteAddLaunch s) s.launches.length = s := by
  constructor
  · exact ⟨defaultNewLaunch s.launches s.country, rfl⟩
  · cases s with
    | mk nm co ls lds =>
      simp only [siteRemoveLaunch, siteAddLaunch, addLaunch,
        handleLaunchRemove_eq_eraseIdx]
      congr 1
      rw [List.eraseIdx_append_of_length_le (Nat.le_refl _)]
      simp

/-- The drag state of the `CompassRose` editor: which endpoint of the
direction range the pointer is currently manipulating (`null` when none). -/
inductive DragMode where
  | start
  | stop
deriving DecidableEq

/-- `handleMouseMove` from the `CompassRose` component, reduced to its data
flow: given the drag mode, the current `startDegrees`/`stopDegrees` props and
the new pointer bearing `angle` (already converted by `radToDeg ∘ atan2`),
it emits the `(start, stop)` pair passed to `onChange`; with no active drag
it leaves the range untouched. -/
def handleMouseMove (dragMode : Option DragMode)
    (startDegrees stopDegrees angle : ℚ) : ℚ × ℚ :=
  match dragMode with
  | none => (startDegrees, stopDegrees)
  | some DragMode.start => (angle, stopDegrees)
  | some DragMode.stop => (startDegrees, angle)

/-- Claim C7: updating one endpoint replaces only the manipulated endpoint
with the new pointer bearing and leaves the other endpoint unchanged, for
every range and every new bearing — no validation or clamping restricts
`angle`, so zero-width (`angle = other endpoint`) or full-circle results are
permitted. -/
theorem handleMouseMove_updates_only_dragged_endpoint
    (startDegrees stopDegrees angle : ℚ) :
    handleMouseMove (some DragMode.start) startDegrees stopDegrees angle =
      (angle, stopDegrees) ∧
    handleMouseMove (some DragMode.stop) startDegrees stopDegrees angle =
      (startDegrees, angle) :=
  ⟨rfl, rfl⟩

namespace SpecModel

/-- Modelled from the spec: the Fact/Decision boundary of §4.4 is not
implemented anywhere under `src/` — the weather and rule-engine pipeline
exists only in planning documents — so the data model below follows the
specification's words.  `DirectionRange` is a start/stop bearing pair. -/
structure DirectionRange where
  startBearing : ℚ
  stopBearing : ℚ
deriving DecidableEq

/-- Modelled from the spec: `SiteType` is an enumerated variant over
`{Hang, Winch}`. -/
inductive SiteType where
  | Hang
  | Winch
deriving DecidableEq

/-- Modelled from the spec: a `Launch` carries a location, an elevation, a
`DirectionRange` and a `SiteType`. -/
structure Launch where
  location : Location
  elevation : ℚ
  direction : DirectionRange
  siteType : SiteType
deriving DecidableEq

/-- Modelled from the spec: the `Fact` boundary schema submitted to the
external rule engine: the launch's direction range and site type together
with the observed wind bearing and speed.  (Named inside a namespace because
Mathlib already has a root `Fact`.) -/
structure Fact where
  launchDirection : DirectionRange
  siteType : SiteType
  windBearing : ℚ
  windSpeed : ℚ
deriving DecidableEq

/-- Modelled from the spec: `buildFact(launch, windBearing, windSpeed)` is a
pure, total constructor of a `Fact` snapshot from the launch's current
`DirectionRange`/`SiteType` and an externally supplied wind observation; no
network access or I/O. -/
def buildFact (launch : Launch) (windBearing windSpeed : ℚ) : Fact :=
  { launchDirection := launch.direction,
    siteType := launch.siteType,
    windBearing := windBearing,
    windSpeed := windSpeed }

/-- Claim C9: `buildFact` is a pure total function: two calls with identical
inputs yield equal `Fact`s, and the produced `Fact` is exactly the snapshot
of the launch's direction range and site type with the supplied wind
observation. -/
theorem buildFact_deterministic (launch : Launch) (windBearing windSpeed : ℚ) :
    buildFact launch windBearing windSpeed = buildFact launch windBearing windSpeed ∧
    (buildFact launch windBearing windSpeed).launchDirection = launch.direction ∧
    (buildFact launch windBearing windSpeed).siteType = launch.siteType ∧
    (buildFact launch windBearing windSpeed).windBearing = windBearing ∧
    (buildFact launch windBearing windSpeed).windSpeed = windSpeed :=
  ⟨rfl, rfl, rfl, rfl, rfl⟩

end SpecModel

/-- The `{lat, lng}` pair used by `SitesMap` in `FilterPanel.tsx`. -/
structure MapPoint where
  lat : ℚ
  lng : ℚ
deriving DecidableEq

/-- The per-launch record `SitesMap` builds for rendering. -/
structure LaunchData where
  location : MapPoint
  elevation : ℚ
  siteName : String
  siteCountry : Option String
  siteType : String
deriving DecidableEq

/-- The per-landing record `SitesMap` builds for rendering. -/
structure LandingData where
  location : MapPoint
  elevation : ℚ
  siteName : String
  siteCountry : Option String
deriving DecidableEq

/-- `coordsMatch` from `FilterPanel.tsx`: independent latitude and longitude
deltas each strictly below `tolerance`, not a great-circle distance. -/
def coordsMatch (a b : MapPoint) (tolerance : ℚ) : Bool :=
  decide (|a.lat - b.lat| < tolerance ∧ |a.lng - b.lng| < tolerance)

/-- The default `tolerance = 0.0001` of `coordsMatch`. -/
def defaultTolerance : ℚ := 1 / 10000

/-- The filtered launch list of `SitesMap`: every site's launches flattened
and then passed through the truthiness filter
`.filter((loc) => loc.location.lat && loc.location.lng)`, which drops any
record whose latitude or longitude is `0`. -/
def sitesMapLaunches (sites : List Site) : List LaunchData :=
  ((sites.flatMap fun site => site.launches.map fun l =>
      ({ location := { lat := l.location.latitude, lng := l.location.longitude },
         elevation := l.elevation, siteName := site.name,
         siteCountry := site.country, siteType := l.site_type } : LaunchData))).filter
    fun loc => decide (loc.location.lat ≠ 0) && decide (loc.location.lng ≠ 0)

/-- The filtered landing list of `SitesMap`, with the same truthiness
filter. -/
def sitesMapLandings (sites : List Site) : List LandingData :=
  ((sites.flatMap fun site => site.landings.map fun l =>
      ({ location := { lat := l.location.latitude, lng := l.location.longitude },
         elevation := l.elevation, siteName := site.name,
         siteCountry := site.country } : LandingData))).filter
    fun loc => decide (loc.location.lat ≠ 0) && decide (loc.location.lng ≠ 0)

/-- `launchesWithOverlap` from `SitesMap`: each launch is paired with
`hasLandingAtSameLocation`, true iff the list of landings whose coordinates
`coordsMatch` the launch's (at the default tolerance) is non-empty. -/
def launchesWithOverlap (launches : List LaunchData) (landings : List LandingData) :
    List (LaunchData × Bool) :=
  launches.map fun launch =>
    (launch,
     decide (0 < (landings.filter fun landing =>
       coordsMatch launch.location landing.location defaultTolerance).length))

/-- The marker positions rendered by `SitesMap` when zoomed out
(`zoom < 11`): one marker per launch of every site, taken directly from
`site.launches` with no truthiness filter. -/
def zoomedOutMarkerPositions (sites : List Site) : List (ℚ × ℚ) :=
  sites.flatMap fun site => site.launches.map fun launch =>
    (launch.location.latitude, launch.location.longitude)

/-- The example launch coordinate `(47.0000, 10.0000)`. -/
def exampleLaunchPoint : MapPoint := { lat := 47, lng := 10 }

/-- The example landing coordinate `(47.00005, 10.00005)`. -/
def exampleLandingPoint : MapPoint := { lat := 47 + 5 / 100000, lng := 10 + 5 / 100000 }

def exampleLaunchData : LaunchData :=
  { location := exampleLaunchPoint, elevation := 1000,
    siteName := "Example", siteCountry := none, siteType := "Hang" }

def exampleLandingData : LandingData :=
  { location := exampleLandingPoint, elevation := 500,
    siteName := "Example", siteCountry := none }

theorem exampleCoordsMatch_true :
    coordsMatch exampleLaunchPoint exampleLandingPoint (1 / 10000) = true := by
  simp only [coordsMatch, exampleLaunchPoint, exampleLandingPoint, decide_eq_true_eq]
  constructor <;> (rw [abs_lt]; constructor <;> norm_num)

theorem exampleCoordsMatch_false :
    coordsMatch exampleLaunchPoint exampleLandingPoint (1 / 100000) = false := by
  simp only [coordsMatch, exampleLaunchPoint, exampleLandingPoint,
    decide_eq_false_iff_not, not_and]
  intro h _
  rw [abs_lt] at h
  have := h.1
  norm_num at this

theorem exampleOverlap_eval :
    launchesWithOverlap [exampleLaunchData] [exampleLandingData] =
      [(exampleLaunchData, true)] := by
  have hc : coordsMatch exampleLaunchPoint exampleLandingPoint defaultTolerance = true := by
    rw [show defaultTolerance = 1 / 10000 from rfl]
    exact exampleCoordsMatch_true
  simp [launchesWithOverlap, exampleLaunchData, exampleLandingData, hc]

/-- Claim C6: in `launchesWithOverlap` a launch's flag is true iff some
landing's coordinate is within tolerance of the launch's coordinate on the
latitude axis and the longitude axis independently (component-wise absolute
deltas, not great-circle distance), at the default tolerance `0.0001`; and
concretely a launch at `(47.0000, 10.0000)` and a landing at
`(47.00005, 10.00005)` match at tolerance `0.0001` but not at `0.00001`. -/
theorem coincidentLaunches_componentwise :
    (∀ (ls : List LaunchData) (ds : List LandingData) (p : LaunchData × Bool),
      p ∈ launchesWithOverlap ls ds →
      (p.2 = true ↔ ∃ d ∈ ds,
        |p.1.location.lat - d.location.lat| < defaultTolerance ∧
        |p.1.location.lng - d.location.lng| < defaultTolerance)) ∧
    defaultTolerance = 1 / 10000 ∧
    coordsMatch exampleLaunchPoint exampleLandingPoint (1 / 10000) = true ∧
    coordsMatch exampleLaunchPoint exampleLandingPoint (1 / 100000) = false := by
  refine ⟨?_, rfl, exampleCoordsMatch_true, exampleCoordsMatch_false⟩
  intro ls ds p hp
  unfold launchesWithOverlap at hp
  rcases List.mem_map.mp hp with ⟨l, _, rfl⟩
  simp only [decide_eq_true_eq, List.length_pos_iff_exists_mem]
  constructor
  · rintro ⟨d, hd⟩
    rw [List.mem_filter] at hd
    have hm := hd.2
    simp only [coordsMatch, decide_eq_true_eq] at hm
    exact ⟨d, hd.1, hm⟩
  · rintro ⟨d, hd, hlat, hlng⟩
    refine ⟨d, List.mem_filter.mpr ⟨hd, ?_⟩⟩
    simp only [coordsMatch, decide_eq_true_eq]
    exact ⟨hlat, hlng⟩

/-- Witness for claim C6: the example launch paired with flag `true` is the
element `launchesWithOverlap` produces for the example site data, and the
flag equivalence instantiates to it. -/
theorem coincidentLaunches_componentwise_witness :
    ((exampleLaunchData, true) : LaunchData × Bool).2 = true ↔
      ∃ d ∈ [exampleLandingData],
        |(exampleLaunchData, true).1.location.lat - d.location.lat| < defaultTolerance ∧
        |(exampleLaunchData, true).1.location.lng - d.location.lng| < defaultTolerance :=
  coincidentLaunches_componentwise.1 [exampleLaunchData] [exampleLandingData]
    (exampleLaunchData, true)
    (by rw [exampleOverlap_eval]; exact List.mem_singleton.mpr rfl)

/-- A launch lying exactly on the equator (`latitude = 0`). -/
def equatorLaunch : Launch :=
  { location := { latitude := 0, longitude := 10, name := "E", country := none },
    direction_degrees_start := 0, direction_degrees_stop := 90,
    elevation := 100, site_type := "Hang" }

/-- A site whose only launch lies on the equator. -/
def equatorSite : Site :=
  { name := "EqSite", country := none, launches := [equatorLaunch], landings := [] }

/-- A site with an ordinary launch and landing at `(47, 10)`. -/
def exampleSite : Site :=
  { name := "Example", country := none, launches := [testLaunch], landings := [testLanding] }

/-- The `LaunchData` record `SitesMap` derives from `exampleSite`. -/
def exampleSiteLaunchData : LaunchData :=
  { location := { lat := 47, lng := 10 }, elevation := 100,
    siteName := "Example", siteCountry := none, siteType := "Hang" }

/-- Claim C10 (amended): every record in the zoomed-in marker lists
(`sitesMapLaunches`, `sitesMapLandings`) and in the coincident-location
computation over them has non-zero latitude and non-zero longitude — the
truthiness filter excludes every launch or landing with a `0` component from
those lists even though the data model admits such coordinates.  (The
zoomed-out per-site markers bypass this filter; see the counterexample.) -/
theorem zeroCoordinate_excluded (sites : List Site) :
    (∀ p, p ∈ sitesMapLaunches sites →
      p.location.lat ≠ 0 ∧ p.location.lng ≠ 0) ∧
    (∀ q, q ∈ sitesMapLandings sites →
      q.location.lat ≠ 0 ∧ q.location.lng ≠ 0) ∧
    (∀ pr, pr ∈ launchesWithOverlap (sitesMapLaunches sites) (sitesMapLandings sites) →
      pr.1.location.lat ≠ 0 ∧ pr.1.location.lng ≠ 0) := by
  have hlaunch : ∀ p, p ∈ sitesMapLaunches sites →
      p.location.lat ≠ 0 ∧ p.location.lng ≠ 0 := by
    intro p hp
    unfold sitesMapLaunches at hp
    have h := (List.mem_filter.mp hp).2
    simp only [Bool.and_eq_true, decide_eq_true_eq] at h
    exact h
  refine ⟨hlaunch, ?_, ?_⟩
  · intro q hq
    unfold sitesMapLandings at hq
    have h := (List.mem_filter.mp hq).2
    simp only [Bool.and_eq_true, decide_eq_true_eq] at h
    exact h
  · intro pr hpr
    unfold launchesWithOverlap at hpr
    rcases List.mem_map.mp hpr with ⟨l, hl, rfl⟩
    exact hlaunch l hl

/-- Claim C10 counterexample: a launch on the equator is excluded from the
zoomed-in marker list, yet it is still displayed: the zoomed-out rendering
path (`zoom < 11`) draws one marker per `site.launches` entry with no
truthiness filter, so the equator launch produces the marker `(0, 10)`. -/
theorem zeroCoordinate_counterexample :
    sitesMapLaunches [equatorSite] = [] ∧
    zoomedOutMarkerPositions [equatorSite] = [(0, 10)] := by
  constructor
  · simp [sitesMapLaunches, equatorSite, equatorLaunch]
  · simp [zoomedOutMarkerPositions, equatorSite, equatorLaunch]

theorem sitesMapLaunches_example_eval :
    sitesMapLaunches [exampleSite] = [exampleSiteLaunchData] := by
  simp only [sitesMapLaunches, exampleSite, testLaunch, List.flatMap_cons,
    List.flatMap_nil, List.map_cons, List.map_nil, List.append_nil,
    List.filter, exampleSiteLaunchData]
  norm_num

/-- Witness for the amended claim C10: the launch record derived from
`exampleSite` is in the zoomed-in list, and both of its coordinate
components are non-zero. -/
theorem zeroCoordinate_excluded_witness :
    exampleSiteLaunchData.location.lat ≠ 0 ∧
    exampleSiteLaunchData.location.lng ≠ 0 :=
  (zeroCoordinate_excluded [exampleSite]).1 exampleSiteLaunchData
    (by rw [sitesMapLaunches_example_eval]; exact List.mem_singleton.mpr rfl)
